import Mathlib

/-!
Verification of the cargomax/senashipping loading-condition application.

Python floats that appear in this code are decimal literals and the
arithmetic on them (products, sums, comparisons, clamping) is modelled
over `ℚ`; every literal occurring in the source is exactly representable.
Python dicts are modelled as association lists of key/value pairs.
-/

namespace Limits

/-- Source `src/senashipping_app/config/limits.py`: minimum acceptable GM (m). -/
def MIN_GM_M : ℚ := 0.15

/-- Source `limits.py`: stricter GM minimum when livestock is aboard. -/
def MIN_GM_LIVESTOCK_M : ℚ := 0.20

/-- Source `limits.py`: max roll period (s) for animal welfare. -/
def MAX_ROLL_PERIOD_S : ℚ := 15.0

/-- Source `limits.py`: min freeboard (m) to avoid deck immersion. -/
def MIN_FREEBORD_M : ℚ := 0.3

/-- Source `limits.py`: default mass per head (t) for stability. -/
def MASS_PER_HEAD_T : ℚ := 0.5

/-- Source `limits.py`: maximum acceptable trim as fraction of LOA. -/
def MAX_TRIM_FRACTION : ℚ := 0.02

/-- Source `limits.py`: maximum draft as fraction of design draft. -/
def MAX_DRAFT_FRACTION : ℚ := 1.05

/-- Source `limits.py`: max SWBM as fraction of design. -/
def MAX_SWBM_FRACTION : ℚ := 1.0

/-- Source `limits.py`: propeller immersion minimum (percent). -/
def MIN_PROP_IMMERSION_PCT : ℚ := 60.0

/-- Source `limits.py`: minimum visibility (m). -/
def MIN_VISIBILITY_M : ℚ := 1.0

/-- Source `limits.py`: minimum air draft (m). -/
def MIN_AIR_DRAFT_M : ℚ := 5.0

/-- Source `limits.py`: free surface correction factor per slack tank. -/
def FREE_SURFACE_FACTOR : ℚ := 0.5

/-- Source `limits.py`: floating-point tolerance. -/
def EPS : ℚ := 1e-9

end Limits

namespace FileService

/-- A Python dictionary key at runtime: an `int` key or a `str` key.
Python dicts are heterogeneous in key type, and `json` serialization
changes `int` keys to `str` keys, so the embedding must track which of
the two a key is. -/
inductive PyKey where
  | pint : Int → PyKey
  | pstr : String → PyKey
deriving DecidableEq, Repr

/-- Modelled from the spec: the `LoadingCondition` dataclass itself is not
under `src/` (only its users are).  Per the spec's data model it is pure
data: name, optional voyage association, map tank-id → filled volume (m³),
map pen-id → head count, plus the summary figures `displacement_t`,
`draft_m`, `trim_m`, `gm_m` named by the persistence format.  The two maps
are association lists whose keys carry their runtime Python type. -/
structure LoadingCondition where
  id : Option Int
  voyage_id : Option Int
  name : String
  tank_volumes_m3 : List (PyKey × ℚ)
  pen_loadings : List (PyKey × Int)
  displacement_t : ℚ
  draft_m : ℚ
  trim_m : ℚ
  gm_m : ℚ
deriving DecidableEq, Repr

/-- The flat JSON object written by `save_condition_to_file`
(`src/senashipping_app/services/file_service.py`).  JSON object keys are
always strings, so the map fields carry `String` keys. -/
structure ConditionFile where
  name : String
  voyage_id : Option Int
  tank_volumes_m3 : List (String × ℚ)
  pen_loadings : List (String × Int)
  displacement_t : ℚ
  draft_m : ℚ
  trim_m : ℚ
  gm_m : ℚ
deriving DecidableEq, Repr

/-- How Python's `json.dump` renders a dict key: an `int` key becomes its
decimal string, a `str` key is kept. -/
def jsonKey : PyKey → String
  | .pint n => toString n
  | .pstr s => s

/-- `save_condition_to_file` (file_service.py, lines 16-36): builds the flat
JSON object from the condition's fields and writes it.  `json.dump`
stringifies the dict keys of `tank_volumes_m3` and `pen_loadings`;
values, `name` and `voyage_id` are written unchanged. -/
def save_condition_to_file (c : LoadingCondition) : ConditionFile :=
  { name := c.name
    voyage_id := c.voyage_id
    tank_volumes_m3 := c.tank_volumes_m3.map (fun p => (jsonKey p.1, p.2))
    pen_loadings := c.pen_loadings.map (fun p => (jsonKey p.1, p.2))
    displacement_t := c.displacement_t
    draft_m := c.draft_m
    trim_m := c.trim_m
    gm_m := c.gm_m }

/-- `load_condition_from_file` (file_service.py, lines 39-64): reads the
JSON object back and constructs a `LoadingCondition` with `id = None`.
`json.load` returns dicts with `str` keys and the function passes them to
the constructor without converting keys back to `int`. -/
def load_condition_from_file (f : ConditionFile) : LoadingCondition :=
  { id := none
    voyage_id := f.voyage_id
    name := f.name
    tank_volumes_m3 := f.tank_volumes_m3.map (fun p => (PyKey.pstr p.1, p.2))
    pen_loadings := f.pen_loadings.map (fun p => (PyKey.pstr p.1, p.2))
    displacement_t := f.displacement_t
    draft_m := f.draft_m
    trim_m := f.trim_m
    gm_m := f.gm_m }

end FileService

namespace Stability

/-- A tank together with its per-computation fill volume, as consumed by the
stability calculator (capacity from the Tank record, volume from the
LoadingCondition's tank_volumes_m3 map). -/
structure TankFill where
  capacity_m3 : ℚ
  volume_m3 : ℚ
deriving DecidableEq, Repr

/-- Modelled from the spec: the slack-tank test of `compute_stability`
(the stability service is not under `src/`).  A tank is slack when its
fill fraction is strictly between 0 and 100 percent of capacity. -/
def slack (t : TankFill) : Bool :=
  decide (0 < t.volume_m3) && decide (t.volume_m3 < t.capacity_m3)

/-- Modelled from the spec: `compute_stability` (not under `src/`) starts
from the raw GM and, for every slack tank, subtracts the fixed penalty
`FREE_SURFACE_FACTOR` to obtain the effective GM. -/
def gm_effective (gm : ℚ) (tanks : List TankFill) : ℚ :=
  tanks.foldl (fun acc t => if slack t then acc - Limits.FREE_SURFACE_FACTOR else acc) gm

theorem gm_effective_cons (gm : ℚ) (t : TankFill) (ts : List TankFill) :
    gm_effective gm (t :: ts)
      = gm_effective (if slack t then gm - Limits.FREE_SURFACE_FACTOR else gm) ts := by
  simp only [gm_effective, List.foldl_cons]

theorem gm_effective_eq_sub_count (gm : ℚ) (tanks : List TankFill) :
    gm_effective gm tanks
      = gm - Limits.FREE_SURFACE_FACTOR * (tanks.countP slack : ℚ) := by
  induction tanks generalizing gm with
  | nil => simp [gm_effective]
  | cons t ts ih =>
    rw [gm_effective_cons, ih, List.countP_cons]
    by_cases h : slack t
    · simp [h]; ring
    · simp [h]

end Stability

namespace CriteriaRules

/-- Criterion outcome at the criterion layer (PASS/FAIL only; WARN lives at
the alarm layer). -/
inductive CriterionResult where
  | PASS
  | FAIL
deriving DecidableEq, Repr

/-- The pass direction of a rule: `atLeast` for `attained ≥ limit` rules,
`atMost` for `attained ≤ limit` rules (the two directions of the spec's
rule table). -/
inductive PassDirection where
  | atLeast
  | atMost
deriving DecidableEq, Repr

/-- Modelled from the spec: the signed margin of a criterion line produced
by the criteria engine (not under `src/`): `(attained - limit)` normalized
to the rule's pass direction, so that a positive margin always means
safe. -/
def margin (dir : PassDirection) (attained limit : ℚ) : ℚ :=
  match dir with
  | .atLeast => attained - limit
  | .atMost => limit - attained

/-- Modelled from the spec: rule evaluation in the criteria engine (not
under `src/`).  A rule passes when its normalized margin is safe, with the
boundary rule that equality of attained and limit within the tolerance
`EPS` counts as PASS — i.e. the margin is compared against `-EPS`, not
against 0. -/
def evalRule (dir : PassDirection) (attained limit : ℚ) : CriterionResult :=
  if -Limits.EPS ≤ margin dir attained limit then .PASS else .FAIL

end CriteriaRules

namespace ConditionTableWidget

/-- `Cargo` dataclass (source `src/senashipping_app/models/cargo.py`). -/
structure Cargo where
  id : Option Int
  name : String
  cargo_type : String
  density_t_per_m3 : ℚ
deriving DecidableEq, Repr

/-- The tank fields consumed by the widgets (per the `TankORM` columns in
`src/cargomax_app/repositories/tank_repository.py`). -/
structure Tank where
  id : Option Int
  name : String
  capacity_m3 : ℚ
  longitudinal_pos : ℚ
deriving DecidableEq, Repr

/-- `LivestockPen` dataclass (source
`src/cargomax_app/models/livestock_pen.py`). -/
structure LivestockPen where
  id : Option Int
  ship_id : Option Int
  name : String
  deck : String
  vcg_m : ℚ
  lcg_m : ℚ
  tcg_m : ℚ
  area_m2 : ℚ
  capacity_head : Int
deriving DecidableEq, Repr

/-- Source `src/cargomax_app/views/condition_table_widget.py`, line 24:
average mass per head in tonnes. -/
def MASS_PER_HEAD_T : ℚ := 0.5

/-- Python `x or -1` on an optional id, as in `pen.id or -1` and
`tank.id or -1`: both `None` and `0` are falsy and yield `-1`. -/
def idOrNeg1 : Option Int → Int
  | none => -1
  | some n => if n = 0 then -1 else n

/-- `pen_loadings.get(pen.id or -1, 0)` — the head count shown for a pen. -/
def lookupHeads (loadings : List (Int × Int)) (p : LivestockPen) : Int :=
  (loadings.lookup (idOrNeg1 p.id)).getD 0

/-- `tank_volumes.get(tank.id or -1, 0.0)` — the volume shown for a tank. -/
def tankVolumeLookup (volumes : List (Int × ℚ)) (t : Tank) : ℚ :=
  (volumes.lookup (idOrNeg1 t.id)).getD 0

/-- Python `s.strip()` modelled on the string's characters: whitespace is
dropped from both ends.  (`p.deck or ""` maps an empty deck to the empty
string, which strips to itself, so the `or` needs no separate case.) -/
def pyStrip (s : String) : List Char :=
  ((s.data.dropWhile Char.isWhitespace).reverse.dropWhile Char.isWhitespace).reverse

/-- Python `s.upper()` modelled on a character list. -/
def pyUpper (l : List Char) : List Char :=
  l.map Char.toUpper

/-- The (name, head count, weight) cells of the rows written by
`_populate_livestock_tab` (condition_table_widget.py, lines 149-198):
one row per pen satisfying
`(p.deck or "").strip().upper() == deck_letter.upper()`, with
`weight_mt = heads * MASS_PER_HEAD_T`. -/
def livestockTabRows (pens : List LivestockPen) (loadings : List (Int × Int))
    (deckLetter : String) : List (String × Int × ℚ) :=
  (pens.filter (fun p => pyUpper (pyStrip p.deck) == pyUpper deckLetter.data)).map
    (fun p => (p.name, lookupHeads loadings p,
      (lookupHeads loadings p : ℚ) * MASS_PER_HEAD_T))

/-- The (name, weight) cells of the tank rows written by
`_populate_all_tab` (condition_table_widget.py, lines 295-320): tanks
with `vol == 0.0` are skipped and the weight cell is
`weight_mt = vol * 1.025` (fixed sea-water density, per the source
comment "Simplified: assume water density"). -/
def allTabTankRows (tanks : List Tank) (volumes : List (Int × ℚ)) :
    List (String × ℚ) :=
  (tanks.filter (fun t => decide (tankVolumeLookup volumes t ≠ 0))).map
    (fun t => (t.name, tankVolumeLookup volumes t * 1.025))

end ConditionTableWidget

namespace ResultsView

/-- The result fields consumed by `ResultsView.update_results` for the
draft display (source `src/cargomax_app/views/results_view.py`, lines
265-272).  `draft_aft_m`/`draft_fwd_m` are probed with `getattr`, so they
are optional. -/
structure Results where
  displacement_t : ℚ
  draft_m : ℚ
  trim_m : ℚ
  draft_aft_m : Option ℚ
  draft_fwd_m : Option ℚ
deriving DecidableEq, Repr

/-- `getattr(results, "draft_aft_m", results.draft_m + results.trim_m / 2)`
(results_view.py, line 267). -/
def displayedDraftAft (r : Results) : ℚ :=
  r.draft_aft_m.getD (r.draft_m + r.trim_m / 2)

/-- `getattr(results, "draft_fwd_m", results.draft_m - results.trim_m / 2)`
(results_view.py, line 268). -/
def displayedDraftFwd (r : Results) : ℚ :=
  r.draft_fwd_m.getD (r.draft_m - r.trim_m / 2)

/-- The `passed`/`failed` counts carried by a criteria report. -/
structure CriteriaReport where
  passed : Nat
  failed : Nat
deriving DecidableEq, Repr

/-- The `crit_sum` string built in `ResultsView.update_results`
(results_view.py, lines 334-337): when the result carries a criteria
object with `passed` and `failed` counts, the f-string
`"{passed} passed, {failed} failed"`; otherwise the empty string. -/
def criteriaSummaryText : Option CriteriaReport → String
  | some c => toString c.passed ++ " passed, " ++ toString c.failed ++ " failed"
  | none => ""

/-- The summary format prescribed by the spec's Result Assembler section,
stated from the spec's words for comparison with the rendering code. -/
def specCriteriaSummary (passed failed : Nat) : String :=
  toString passed ++ " passed, " ++ toString failed ++ " failed"

end ResultsView

namespace ConditionEditorView

/-- The clamped fill percentage read from one tank row of the editor table
(source `src/cargomax_app/views/condition_editor_view.py`, lines 349-354
and 431-435).  The cell text put through Python `float()` is modelled as
`Option ℚ`: `none` when unparsable (the `except` branch sets 0.0), and the
result is clamped with `max(0.0, min(100.0, fill_pct))`. -/
def fillPctFromCell (cell : Option ℚ) : ℚ :=
  max 0 (min 100 (cell.getD 0))

/-- `vol = tank.capacity_m3 * (fill_pct / 100.0)`
(condition_editor_view.py, lines 359 and 439). -/
def tankVolumeFromCell (capacity : ℚ) (cell : Option ℚ) : ℚ :=
  capacity * (fillPctFromCell cell / 100)

/-- The pen_loadings entry contributed by one pen row in `_on_compute`
(condition_editor_view.py, lines 370-376): the cell text put through
`int(float(...))` is modelled as `Option Int` (`none` when unparsable,
treated as 0), then `heads = max(0, heads)` and an entry is stored only
when `heads > 0`. -/
def penHeadsCompute (cell : Option Int) : Option Int :=
  let heads := max 0 (cell.getD 0)
  if 0 < heads then some heads else none

/-- The pen_loadings entry contributed by one pen row in
`_on_save_condition` (condition_editor_view.py, lines 449-454): same as
`penHeadsCompute` but without the `max(0, heads)` clamp — the `heads > 0`
guard alone decides whether an entry is stored. -/
def penHeadsSave (cell : Option Int) : Option Int :=
  let heads := cell.getD 0
  if 0 < heads then some heads else none

/-- The pen_loadings map built by iterating the pen-table rows
(pen id, parsed head-count cell) with one of the two entry functions.
The dict writes `pen_loadings[int(pen_id)] = heads` for distinct pens are
modelled as an association list. -/
def buildPenLoadings (entry : Option Int → Option Int)
    (rows : List (Int × Option Int)) : List (Int × Int) :=
  rows.filterMap (fun r => (entry r.2).map (fun h => (r.1, h)))

theorem penHeadsCompute_pos {cell : Option Int} {h : Int}
    (hc : penHeadsCompute cell = some h) : 0 < h := by
  simp only [penHeadsCompute] at hc
  split at hc
  · cases hc; assumption
  · cases hc

theorem penHeadsSave_pos {cell : Option Int} {h : Int}
    (hc : penHeadsSave cell = some h) : 0 < h := by
  simp only [penHeadsSave] at hc
  split at hc
  · cases hc; assumption
  · cases hc

end ConditionEditorView

/-- C4: the named limit constants carry exactly the default values stated in
the spec's canonical rule table: MIN_GM_M = 0.15, MIN_GM_LIVESTOCK_M = 0.20,
MAX_ROLL_PERIOD_S = 15, MIN_FREEBORD_M = 0.3, MAX_TRIM_FRACTION = 0.02,
MAX_DRAFT_FRACTION = 1.05, MAX_SWBM_FRACTION = 1.0,
MIN_PROP_IMMERSION_PCT = 60, MIN_VISIBILITY_M = 1.0, MIN_AIR_DRAFT_M = 5.0. -/
theorem limits_defaults_match_spec_table :
    Limits.MIN_GM_M = 3 / 20 ∧
    Limits.MIN_GM_LIVESTOCK_M = 1 / 5 ∧
    Limits.MAX_ROLL_PERIOD_S = 15 ∧
    Limits.MIN_FREEBORD_M = 3 / 10 ∧
    Limits.MAX_TRIM_FRACTION = 1 / 50 ∧
    Limits.MAX_DRAFT_FRACTION = 21 / 20 ∧
    Limits.MAX_SWBM_FRACTION = 1 ∧
    Limits.MIN_PROP_IMMERSION_PCT = 60 ∧
    Limits.MIN_VISIBILITY_M = 1 ∧
    Limits.MIN_AIR_DRAFT_M = 5 := by
  refine ⟨?_, ?_, ?_, ?_, ?_, ?_, ?_, ?_, ?_, ?_⟩ <;>
    norm_num [Limits.MIN_GM_M, Limits.MIN_GM_LIVESTOCK_M, Limits.MAX_ROLL_PERIOD_S,
      Limits.MIN_FREEBORD_M, Limits.MAX_TRIM_FRACTION, Limits.MAX_DRAFT_FRACTION,
      Limits.MAX_SWBM_FRACTION, Limits.MIN_PROP_IMMERSION_PCT,
      Limits.MIN_VISIBILITY_M, Limits.MIN_AIR_DRAFT_M]

/-- C1 (code bug): saving and re-loading the loading condition whose
`tank_volumes_m3` is the map with the single `int` key 1 mapped to 50.0
and whose `pen_loadings` maps the `int` key 2 to 10 preserves `name` and
`voyage_id`, and preserves the map values — but the `int` keys come back
as the `str` keys "1" and "2", so the two maps are not identical to the
originals and the int→float / int→int key types are not preserved. -/
theorem save_load_roundtrip_turns_int_keys_into_strings :
    (FileService.load_condition_from_file (FileService.save_condition_to_file
        { id := some 7, voyage_id := some 3, name := "Departure"
          tank_volumes_m3 := [(FileService.PyKey.pint 1, 50)]
          pen_loadings := [(FileService.PyKey.pint 2, 10)]
          displacement_t := 5000, draft_m := 4, trim_m := 1, gm_m := 1 })).name
      = "Departure" ∧
    (FileService.load_condition_from_file (FileService.save_condition_to_file
        { id := some 7, voyage_id := some 3, name := "Departure"
          tank_volumes_m3 := [(FileService.PyKey.pint 1, 50)]
          pen_loadings := [(FileService.PyKey.pint 2, 10)]
          displacement_t := 5000, draft_m := 4, trim_m := 1, gm_m := 1 })).voyage_id
      = some 3 ∧
    (FileService.load_condition_from_file (FileService.save_condition_to_file
        { id := some 7, voyage_id := some 3, name := "Departure"
          tank_volumes_m3 := [(FileService.PyKey.pint 1, 50)]
          pen_loadings := [(FileService.PyKey.pint 2, 10)]
          displacement_t := 5000, draft_m := 4, trim_m := 1, gm_m := 1 })).tank_volumes_m3
      = [(FileService.PyKey.pstr "1", 50)] ∧
    (FileService.load_condition_from_file (FileService.save_condition_to_file
        { id := some 7, voyage_id := some 3, name := "Departure"
          tank_volumes_m3 := [(FileService.PyKey.pint 1, 50)]
          pen_loadings := [(FileService.PyKey.pint 2, 10)]
          displacement_t := 5000, draft_m := 4, trim_m := 1, gm_m := 1 })).tank_volumes_m3
      ≠ [(FileService.PyKey.pint 1, 50)] ∧
    (FileService.load_condition_from_file (FileService.save_condition_to_file
        { id := some 7, voyage_id := some 3, name := "Departure"
          tank_volumes_m3 := [(FileService.PyKey.pint 1, 50)]
          pen_loadings := [(FileService.PyKey.pint 2, 10)]
          displacement_t := 5000, draft_m := 4, trim_m := 1, gm_m := 1 })).pen_loadings
      ≠ [(FileService.PyKey.pint 2, 10)] := by
  refine ⟨rfl, rfl, by decide, by decide, by decide⟩

/-- C2: for every loading, the effective GM equals the raw GM minus
FREE_SURFACE_FACTOR (whose value is 0.5) times the number of tanks whose
fill fraction is strictly between 0 and 100 percent; a tank filled to
exactly 0 percent or exactly 100 percent of its capacity contributes zero
free-surface penalty, and a tank filled strictly between contributes
exactly one FREE_SURFACE_FACTOR penalty, independent of its actual fill
fraction. -/
theorem gm_effective_free_surface_correction (gm : ℚ) (tanks : List Stability.TankFill) :
    Stability.gm_effective gm tanks
      = gm - Limits.FREE_SURFACE_FACTOR * (tanks.countP Stability.slack : ℚ) ∧
    Limits.FREE_SURFACE_FACTOR = 1 / 2 ∧
    (∀ t : Stability.TankFill,
        Stability.slack t = true ↔ 0 < t.volume_m3 ∧ t.volume_m3 < t.capacity_m3) ∧
    (∀ t : Stability.TankFill, t.volume_m3 = 0 → Stability.gm_effective gm [t] = gm) ∧
    (∀ t : Stability.TankFill, t.volume_m3 = t.capacity_m3 →
        Stability.gm_effective gm [t] = gm) ∧
    (∀ t : Stability.TankFill, 0 < t.volume_m3 → t.volume_m3 < t.capacity_m3 →
        Stability.gm_effective gm [t] = gm - Limits.FREE_SURFACE_FACTOR) := by
  refine ⟨Stability.gm_effective_eq_sub_count gm tanks, by norm_num [Limits.FREE_SURFACE_FACTOR],
    ?_, ?_, ?_, ?_⟩
  · intro t
    simp [Stability.slack]
  · intro t h
    simp [Stability.gm_effective, Stability.slack, h]
  · intro t h
    simp [Stability.gm_effective, Stability.slack, h]
  · intro t h1 h2
    simp [Stability.gm_effective, Stability.slack, h1, h2]

/-- Witness for C2: a ballast tank of capacity 100 m³ at volume 0 or 100
contributes no penalty, and at volume 37 m³ contributes exactly one
FREE_SURFACE_FACTOR. -/
theorem gm_effective_free_surface_correction_witness :
    Stability.gm_effective 2 [⟨100, 0⟩] = 2 ∧
    Stability.gm_effective 2 [⟨100, 100⟩] = 2 ∧
    Stability.gm_effective 2 [⟨100, 37⟩] = 2 - Limits.FREE_SURFACE_FACTOR := by
  have h := gm_effective_free_surface_correction 2 []
  exact ⟨h.2.2.2.1 ⟨100, 0⟩ rfl, h.2.2.2.2.1 ⟨100, 100⟩ rfl,
    h.2.2.2.2.2 ⟨100, 37⟩ (by norm_num) (by norm_num)⟩

/-- C3 (amended): a criterion line passes exactly when its signed margin is
at least -EPS: a non-negative margin always yields PASS, and attained equal
to the limit within the tolerance EPS always yields PASS, but margins in
the band [-EPS, 0) also PASS, so "margin ≥ 0 iff PASS" does not hold
literally. -/
theorem criterion_pass_iff_margin_ge_neg_eps
    (dir : CriteriaRules.PassDirection) (a l : ℚ) :
    (CriteriaRules.evalRule dir a l = .PASS ↔
        -Limits.EPS ≤ CriteriaRules.margin dir a l) ∧
    (0 ≤ CriteriaRules.margin dir a l → CriteriaRules.evalRule dir a l = .PASS) ∧
    (|a - l| ≤ Limits.EPS → CriteriaRules.evalRule dir a l = .PASS) ∧
    (CriteriaRules.evalRule dir a l = .FAIL ↔
        CriteriaRules.margin dir a l < -Limits.EPS) := by
  have heps : (0 : ℚ) < Limits.EPS := by norm_num [Limits.EPS]
  refine ⟨?_, ?_, ?_, ?_⟩
  · unfold CriteriaRules.evalRule
    split <;> simp_all
  · intro h
    unfold CriteriaRules.evalRule
    rw [if_pos (by linarith)]
  · intro h
    rw [abs_le] at h
    unfold CriteriaRules.evalRule
    rw [if_pos ?_]
    cases dir <;> simp [CriteriaRules.margin] <;> linarith [h.1, h.2]
  · unfold CriteriaRules.evalRule
    split <;> simp_all

/-- Witness for C3: a Minimum-GM style rule (pass direction ≥) with
attained 2 and limit 1 passes, and a Trim style rule (pass direction ≤)
with attained 2 and limit 1 fails. -/
theorem criterion_pass_iff_margin_ge_neg_eps_witness :
    CriteriaRules.evalRule .atLeast 2 1 = .PASS ∧
    CriteriaRules.evalRule .atMost 2 1 = .FAIL := by
  refine ⟨(criterion_pass_iff_margin_ge_neg_eps .atLeast 2 1).2.1 ?_,
    (criterion_pass_iff_margin_ge_neg_eps .atMost 2 1).2.2.2.mpr ?_⟩
  · norm_num [CriteriaRules.margin]
  · norm_num [CriteriaRules.margin, Limits.EPS]

/-- Counterexample for C3 as stated: a rule whose attained value
undershoots its limit by EPS/2 produces a PASS line with strictly negative
margin, so "margin ≥ 0 iff result = PASS" is false. -/
theorem criterion_pass_with_negative_margin :
    CriteriaRules.evalRule .atLeast (1 - Limits.EPS / 2) 1 = .PASS ∧
    CriteriaRules.margin .atLeast (1 - Limits.EPS / 2) 1 < 0 := by
  constructor
  · unfold CriteriaRules.evalRule
    rw [if_pos (by norm_num [CriteriaRules.margin, Limits.EPS])]
  · norm_num [CriteriaRules.margin, Limits.EPS]

/-- C5 (amended): every tank row of the "All" tab attributes to a tank with
non-zero supplied volume v the weight v * 1.025, the fixed sea-water
density shared across all tanks, regardless of any cargo's
density_t_per_m3. -/
theorem tank_row_weight_uses_fixed_density
    (tanks : List ConditionTableWidget.Tank) (volumes : List (Int × ℚ))
    (nm : String) (w : ℚ)
    (hmem : (nm, w) ∈ ConditionTableWidget.allTabTankRows tanks volumes) :
    ∃ t ∈ tanks, nm = t.name ∧
      ConditionTableWidget.tankVolumeLookup volumes t ≠ 0 ∧
      w = ConditionTableWidget.tankVolumeLookup volumes t * 1.025 := by
  simp only [ConditionTableWidget.allTabTankRows, List.mem_map, List.mem_filter,
    decide_eq_true_eq, Prod.mk.injEq] at hmem
  obtain ⟨t, ⟨ht, hv⟩, hn, hw⟩ := hmem
  exact ⟨t, ht, hn.symm, hv, hw.symm⟩

/-- Witness for C5 (amended): a single tank with id 1 and supplied volume
10 m³ yields the row ("WB1", 10.25), and the theorem recovers that 10.25
equals the looked-up volume times 1.025. -/
theorem tank_row_weight_uses_fixed_density_witness :
    ∃ t ∈ [({ id := some 1, name := "WB1", capacity_m3 := 100,
              longitudinal_pos := 1/2 } : ConditionTableWidget.Tank)],
      "WB1" = t.name ∧
      ConditionTableWidget.tankVolumeLookup [(1, 10)] t ≠ 0 ∧
      (41 : ℚ) / 4 = ConditionTableWidget.tankVolumeLookup [(1, 10)] t * 1.025 :=
  tank_row_weight_uses_fixed_density
    [{ id := some 1, name := "WB1", capacity_m3 := 100, longitudinal_pos := 1/2 }]
    [(1, 10)] "WB1" (41 / 4)
    (by
      simp [ConditionTableWidget.allTabTankRows, ConditionTableWidget.tankVolumeLookup,
        ConditionTableWidget.idOrNeg1, List.lookup]
      norm_num)

/-- Counterexample for C5 as stated: the tank row for a 10 m³ volume shows
weight 10.25 t (= 10 * 1.025), while 10 times the density 2.0 t/m³ carried
by a heavy cargo's density_t_per_m3 would be 20 t — the displayed weight
is not volume times the tank's cargo density. -/
theorem tank_row_weight_ignores_cargo_density :
    ConditionTableWidget.allTabTankRows
        [{ id := some 1, name := "WB1", capacity_m3 := 100, longitudinal_pos := 1/2 }]
        [(1, 10)]
      = [("WB1", 41 / 4)] ∧
    (10 : ℚ) * ({ id := some 5, name := "Crude", cargo_type := "crude oil",
                  density_t_per_m3 := 2 } : ConditionTableWidget.Cargo).density_t_per_m3
      ≠ 41 / 4 := by
  constructor
  · simp [ConditionTableWidget.allTabTankRows, ConditionTableWidget.tankVolumeLookup,
      ConditionTableWidget.idOrNeg1, List.lookup]
    norm_num
  · norm_num

/-- C6: every row of a livestock deck tab attributes to a pen with head
count h the weight h * MASS_PER_HEAD_T, the mass-per-head constant whose
default value is 0.5 t/head (both the widget constant and the limits
configuration constant equal 0.5), and a pen with zero heads contributes
zero weight. -/
theorem pen_row_weight_is_heads_times_mass_per_head
    (pens : List ConditionTableWidget.LivestockPen) (loadings : List (Int × Int))
    (deckLetter nm : String) (h : Int) (w : ℚ)
    (hmem : (nm, h, w) ∈ ConditionTableWidget.livestockTabRows pens loadings deckLetter) :
    w = (h : ℚ) * ConditionTableWidget.MASS_PER_HEAD_T ∧
    ConditionTableWidget.MASS_PER_HEAD_T = 1 / 2 ∧
    Limits.MASS_PER_HEAD_T = 1 / 2 ∧
    (h = 0 → w = 0) := by
  simp only [ConditionTableWidget.livestockTabRows, List.mem_map, List.mem_filter,
    Prod.mk.injEq] at hmem
  obtain ⟨p, ⟨hp, hdeck⟩, hn, hh, hw⟩ := hmem
  subst hh
  refine ⟨hw.symm, by norm_num [ConditionTableWidget.MASS_PER_HEAD_T],
    by norm_num [Limits.MASS_PER_HEAD_T], ?_⟩
  intro h0
  rw [← hw, h0]
  norm_num

/-- Witness for C6: a pen on deck A loaded with 40 head weighs 20 t, and
the same pen with no entry in pen_loadings weighs 0 t. -/
theorem pen_row_weight_is_heads_times_mass_per_head_witness :
    ((20 : ℚ) = (40 : Int) * ConditionTableWidget.MASS_PER_HEAD_T ∧
      ConditionTableWidget.MASS_PER_HEAD_T = 1 / 2 ∧
      Limits.MASS_PER_HEAD_T = 1 / 2 ∧
      ((40 : Int) = 0 → (20 : ℚ) = 0)) ∧
    ((0 : ℚ) = (0 : Int) * ConditionTableWidget.MASS_PER_HEAD_T ∧
      ConditionTableWidget.MASS_PER_HEAD_T = 1 / 2 ∧
      Limits.MASS_PER_HEAD_T = 1 / 2 ∧
      ((0 : Int) = 0 → (0 : ℚ) = 0)) :=
  ⟨pen_row_weight_is_heads_times_mass_per_head
      [{ id := some 1, ship_id := some 1, name := "PEN 1-1", deck := "A",
          vcg_m := 9, lcg_m := 40, tcg_m := 0, area_m2 := 80, capacity_head := 50 }]
      [(1, 40)] "A" "PEN 1-1" 40 20
      (by
        simp [ConditionTableWidget.livestockTabRows, ConditionTableWidget.lookupHeads,
          ConditionTableWidget.idOrNeg1, ConditionTableWidget.pyStrip,
          ConditionTableWidget.pyUpper, List.lookup, ConditionTableWidget.MASS_PER_HEAD_T]
        norm_num),
    pen_row_weight_is_heads_times_mass_per_head
      [{ id := some 1, ship_id := some 1, name := "PEN 1-1", deck := "A",
          vcg_m := 9, lcg_m := 40, tcg_m := 0, area_m2 := 80, capacity_head := 50 }]
      [] "A" "PEN 1-1" 0 0
      (by
        simp [ConditionTableWidget.livestockTabRows, ConditionTableWidget.lookupHeads,
          ConditionTableWidget.idOrNeg1, ConditionTableWidget.pyStrip,
          ConditionTableWidget.pyUpper, List.lookup, ConditionTableWidget.MASS_PER_HEAD_T])⟩

/-- C7: when the computed result object carries no explicit draft_aft_m /
draft_fwd_m fields, the aft draft presented is draft_m + trim_m / 2 and
the forward draft presented is draft_m - trim_m / 2. -/
theorem derived_drafts_when_absent (r : ResultsView.Results)
    (ha : r.draft_aft_m = none) (hf : r.draft_fwd_m = none) :
    ResultsView.displayedDraftAft r = r.draft_m + r.trim_m / 2 ∧
    ResultsView.displayedDraftFwd r = r.draft_m - r.trim_m / 2 := by
  simp [ResultsView.displayedDraftAft, ResultsView.displayedDraftFwd, ha, hf]

/-- Witness for C7: mean draft 4 m and trim 1 m without explicit aft/fwd
fields display as aft 4.5 m and fwd 3.5 m. -/
theorem derived_drafts_when_absent_witness :
    ResultsView.displayedDraftAft ⟨1000, 4, 1, none, none⟩ = 9 / 2 ∧
    ResultsView.displayedDraftFwd ⟨1000, 4, 1, none, none⟩ = 7 / 2 := by
  have h := derived_drafts_when_absent ⟨1000, 4, 1, none, none⟩ rfl rfl
  rw [h.1, h.2]
  norm_num

/-- C8: for every criteria report carrying passed and failed counts, the
criteria summary string rendered with the result is exactly
"{passed} passed, {failed} failed" with the two counts substituted in
that order. -/
theorem criteria_summary_format (c : ResultsView.CriteriaReport) :
    ResultsView.criteriaSummaryText (some c)
      = ResultsView.specCriteriaSummary c.passed c.failed ∧
    ResultsView.criteriaSummaryText (some ⟨3, 2⟩) = "3 passed, 2 failed" :=
  ⟨rfl, rfl⟩

/-- C9: in the condition editor, the fill percentage of every tank row is
clamped to [0, 100] (unparsable text counting as 0) before conversion to
volume = capacity * pct / 100, so for every tank of non-negative capacity
the stored volume satisfies 0 ≤ volume ≤ capacity; pens, in contrast, get
no capacity clamp — any positive parsed head count is stored as is. -/
theorem tank_volume_clamped_to_capacity (cap : ℚ) (hcap : 0 ≤ cap) (cell : Option ℚ) :
    0 ≤ ConditionEditorView.tankVolumeFromCell cap cell ∧
    ConditionEditorView.tankVolumeFromCell cap cell ≤ cap ∧
    (∀ h : Int, 0 < h → ConditionEditorView.penHeadsCompute (some h) = some h) := by
  have hpct0 : 0 ≤ ConditionEditorView.fillPctFromCell cell := le_max_left 0 _
  have hpct100 : ConditionEditorView.fillPctFromCell cell ≤ 100 := by
    apply max_le (by norm_num)
    exact min_le_left 100 _
  refine ⟨?_, ?_, ?_⟩
  · exact mul_nonneg hcap (by positivity)
  · calc cap * (ConditionEditorView.fillPctFromCell cell / 100)
        ≤ cap * 1 := by
          apply mul_le_mul_of_nonneg_left _ hcap
          rw [div_le_one (by norm_num)]
          exact hpct100
      _ = cap := mul_one cap
  · intro h hh
    simp only [ConditionEditorView.penHeadsCompute, Option.getD_some]
    rw [max_eq_right hh.le, if_pos hh]

/-- Witness for C9: a 100 m³ tank whose cell reads 150 (over-full) stores a
volume between 0 and 100 m³ (the clamp caps it), while a pen cell of 5
head — above any capacity — is stored as 5. -/
theorem tank_volume_clamped_to_capacity_witness :
    (0 ≤ ConditionEditorView.tankVolumeFromCell 100 (some 150) ∧
      ConditionEditorView.tankVolumeFromCell 100 (some 150) ≤ 100) ∧
    ConditionEditorView.penHeadsCompute (some 5) = some 5 := by
  have h := tank_volume_clamped_to_capacity 100 (by norm_num) (some 150)
  exact ⟨⟨h.1, h.2.1⟩, h.2.2 5 (by norm_num)⟩

/-- C10: the pen_loadings maps built by `_on_compute` and
`_on_save_condition` contain an entry only for rows whose parsed head
count is strictly positive — an unparsable, zero, or negative head-count
cell produces no entry — so every stored value is a positive integer. -/
theorem pen_loadings_entries_positive (rows : List (Int × Option Int)) (i h : Int) :
    ((i, h) ∈ ConditionEditorView.buildPenLoadings
        ConditionEditorView.penHeadsCompute rows → 0 < h) ∧
    ((i, h) ∈ ConditionEditorView.buildPenLoadings
        ConditionEditorView.penHeadsSave rows → 0 < h) ∧
    ConditionEditorView.penHeadsCompute none = none ∧
    ConditionEditorView.penHeadsSave none = none ∧
    (∀ k : Int, k ≤ 0 → ConditionEditorView.penHeadsCompute (some k) = none) ∧
    (∀ k : Int, k ≤ 0 → ConditionEditorView.penHeadsSave (some k) = none) := by
  refine ⟨?_, ?_, rfl, rfl, ?_, ?_⟩
  · intro hm
    simp only [ConditionEditorView.buildPenLoadings, List.mem_filterMap,
      Option.map_eq_some', Prod.mk.injEq] at hm
    obtain ⟨r, _, v, hv, _, hh⟩ := hm
    exact hh ▸ ConditionEditorView.penHeadsCompute_pos hv
  · intro hm
    simp only [ConditionEditorView.buildPenLoadings, List.mem_filterMap,
      Option.map_eq_some', Prod.mk.injEq] at hm
    obtain ⟨r, _, v, hv, _, hh⟩ := hm
    exact hh ▸ ConditionEditorView.penHeadsSave_pos hv
  · intro k hk
    simp only [ConditionEditorView.penHeadsCompute, Option.getD_some]
    rw [max_eq_left hk, if_neg (lt_irrefl 0)]
  · intro k hk
    simp only [ConditionEditorView.penHeadsSave, Option.getD_some]
    rw [if_neg (not_lt.mpr hk)]

/-- Witness for C10: over the rows (1, "3"), (2, "0"), (3, unparsable),
(4, "-2") the built map contains (1, 3), whose value the theorem proves
positive, and the zero, unparsable and negative cells produce no entry. -/
theorem pen_loadings_entries_positive_witness :
    (0 : Int) < 3 ∧
    ConditionEditorView.penHeadsCompute none = none ∧
    ConditionEditorView.penHeadsCompute (some 0) = none ∧
    ConditionEditorView.penHeadsSave (some (-2)) = none := by
  have h := pen_loadings_entries_positive
    [(1, some 3), (2, some 0), (3, none), (4, some (-2))] 1 3
  exact ⟨h.1 (by decide), h.2.2.1, h.2.2.2.2.1 0 le_rfl,
    h.2.2.2.2.2 (-2) (by norm_num)⟩
